import Mathlib

/-!
Verification of `src/kubeflow/training-operator/resnet50/util.py`.

The file shallowly embeds the four procedures of `util.py`
(`train_mixed_precision`, `train_epoch`, `test`, `accuracy`, `load_data`)
over explicit Lean data.  Side-effecting framework calls (device moves,
gradient zeroing, backward passes, optimizer steps, scaler operations,
telemetry) are embedded as an explicit event trace, in the order the
source performs them; numeric tensor code (`accuracy`) is embedded as
computable functions on lists of rationals.
-/

namespace KubeflowResnet

/-- Payload of a `wandb_run.log` record emitted by the two training loops
(`train/loss`, `train/epoch`, `train/step`, `train/samples_seen`; the
wall-clock `perf/rank_samples_per_second` field is real-time and omitted). -/
structure TrainLogInfo where
  loss : ℚ
  epoch : ℤ
  step : ℤ
  samplesSeen : ℤ
  deriving DecidableEq

/-- Payload of the `wandb_run.log` record emitted by `test`
(`test/loss`, `test/epoch`, `test/acc1`, `test/acc5`). -/
structure TestLogInfo where
  loss : ℚ
  acc1 : ℚ
  acc5 : ℚ
  epoch : ℤ
  deriving DecidableEq

/-- Payload of the console `print` in the training loops: epoch,
`batch_idx * len(data)`, `len(train_sampler)`, completion percentage,
loss, and (mixed precision only) the scaler factor. -/
structure ConsoleInfo where
  epoch : ℤ
  processedSamples : ℕ
  samplerLen : ℕ
  completion : ℚ
  loss : ℚ
  lossScale : Option ℚ
  deriving DecidableEq

/-- One observable framework call made by the procedures of `util.py`.
`forward`/`computeLoss` carry whether they run under `torch.cuda.amp.autocast`
and whether gradient tracking is enabled (it is disabled inside
`torch.inference_mode`). -/
inductive Event where
  | setTrain (training : Bool)
  | samplerSetEpoch (epoch : ℤ)
  | moveToDevice
  | zeroGrad
  | forward (autocast : Bool) (gradTracking : Bool)
  | computeLoss (autocast : Bool) (gradTracking : Bool)
  | scaleLoss
  | backward
  | syncGradients
  | unscaleGrads
  | optimizerStep
  | scalerUpdate
  | cudaDeviceSync
  | wandbTrainLog (info : TrainLogInfo)
  | wandbTestLog (info : TestLogInfo)
  | consoleTrainLog (info : ConsoleInfo)
  | consoleTestLog (info : TestLogInfo)
  deriving DecidableEq

/-- The training computation proper: device moves, gradient work, forward
and loss, loss scaling, synchronization, optimizer and scaler calls.
Telemetry (dashboard records, console prints, and the CUDA timing barrier
inside the telemetry branch) is excluded. -/
def isTrainOp : Event → Bool
  | .moveToDevice => true
  | .zeroGrad => true
  | .forward _ _ => true
  | .computeLoss _ _ => true
  | .scaleLoss => true
  | .backward => true
  | .syncGradients => true
  | .unscaleGrads => true
  | .optimizerStep => true
  | .scalerUpdate => true
  | _ => false

/-- The training-computation subtrace of an event trace. -/
def coreOps (es : List Event) : List Event := es.filter isTrainOp

/-- Calls that exist only in the mixed-precision variant: loss scaling,
gradient unscaling, the scaler update, and the distributed-gradient
synchronization. -/
def isMixedPrecisionOp : Event → Bool
  | .scaleLoss => true
  | .syncGradients => true
  | .unscaleGrads => true
  | .scalerUpdate => true
  | _ => false

/-- Forget the autocast context on forward/loss events. -/
def clearAutocast : Event → Event
  | .forward _ g => .forward false g
  | .computeLoss _ g => .computeLoss false g
  | e => e

/-- Drop the mixed-precision-only calls from a trace and forget the
autocast context. -/
def stripMixedPrecision (es : List Event) : List Event :=
  (es.filter fun e => !isMixedPrecisionOp e).map clearAutocast

/-- Whether an event is a dashboard record of a training loop. -/
def isWandbTrainEvt : Event → Bool
  | .wandbTrainLog _ => true
  | _ => false

/-- Whether an event is a console line of a training loop. -/
def isConsoleTrainEvt : Event → Bool
  | .consoleTrainLog _ => true
  | _ => false

/-- Does the trace contain a training dashboard record? -/
def hasWandbTrainLog (es : List Event) : Bool := es.any isWandbTrainEvt

/-- Does the trace contain a training console line? -/
def hasConsoleTrainLog (es : List Event) : Bool := es.any isConsoleTrainEvt

/-- The `train/samples_seen` field of a training dashboard record. -/
def samplesSeenOf : Event → Option ℤ
  | .wandbTrainLog info => some info.samplesSeen
  | _ => none

/-- The loop-invariant arguments of the two training procedures:
`epoch`, `log_interval`, `use_cuda`, `len(train_loader)` (number of
batches), `len(train_sampler)` (shard size) and whether a `wandb_run`
was supplied. -/
structure TrainCfg where
  epoch : ℤ
  logInterval : ℕ
  useCuda : Bool
  numBatches : ℕ
  samplerLen : ℕ
  wandbRun : Bool
  deriving DecidableEq

/-- Body of the `for batch_idx, (data, target) in enumerate(train_loader)`
loop of `train_mixed_precision` (util.py lines 33-67), as the trace of
framework calls it makes, in source order: optional `.cuda()` moves,
`optimizer.zero_grad()`, forward and loss under `autocast`,
`scaler.scale(loss).backward()`, `optimizer.synchronize()`,
`scaler.unscale_(optimizer)`, `scaler.step(optimizer)`, `scaler.update()`,
then the unconditional-when-present wandb record and the
`batch_idx % log_interval == 0` console line. -/
def train_mixed_precision_batch {I : Type} (forward : List I → List (List ℚ))
    (criterion : List (List ℚ) → List ℕ → ℚ) (scale : ℚ) (cfg : TrainCfg)
    (batchIdx : ℕ) (data : List I) (target : List ℕ) : List Event :=
  let output := forward data
  let loss := criterion output target
  let globalStep : ℤ := (cfg.epoch - 1) * (cfg.numBatches : ℤ) + (batchIdx : ℤ)
  (if cfg.useCuda then [Event.moveToDevice] else []) ++
  [Event.zeroGrad, Event.forward true true, Event.computeLoss true true,
   Event.scaleLoss, Event.backward, Event.syncGradients, Event.unscaleGrads,
   Event.optimizerStep, Event.scalerUpdate] ++
  (if cfg.wandbRun then
    [Event.wandbTrainLog { loss := loss, epoch := cfg.epoch, step := globalStep,
                           samplesSeen := globalStep * (data.length : ℤ) }]
   else []) ++
  (if batchIdx % cfg.logInterval == 0 then
    [Event.consoleTrainLog { epoch := cfg.epoch,
                             processedSamples := batchIdx * data.length,
                             samplerLen := cfg.samplerLen,
                             completion := 100 * (batchIdx : ℚ) / (cfg.numBatches : ℚ),
                             loss := loss, lossScale := some scale }]
   else [])

/-- Body of the batch loop of `train_epoch` (util.py lines 82-108):
optional `.cuda()` moves, `optimizer.zero_grad()`, forward and loss
(no autocast), `loss.backward()`, `optimizer.step()`, then the wandb
branch (which first calls `torch.cuda.synchronize()`) and the console
line; the console line prints no loss scale. -/
def train_epoch_batch {I : Type} (forward : List I → List (List ℚ))
    (criterion : List (List ℚ) → List ℕ → ℚ) (cfg : TrainCfg)
    (batchIdx : ℕ) (data : List I) (target : List ℕ) : List Event :=
  let output := forward data
  let loss := criterion output target
  let globalStep : ℤ := (cfg.epoch - 1) * (cfg.numBatches : ℤ) + (batchIdx : ℤ)
  (if cfg.useCuda then [Event.moveToDevice] else []) ++
  [Event.zeroGrad, Event.forward false true, Event.computeLoss false true,
   Event.backward, Event.optimizerStep] ++
  (if cfg.wandbRun then
    [Event.cudaDeviceSync,
     Event.wandbTrainLog { loss := loss, epoch := cfg.epoch, step := globalStep,
                           samplesSeen := globalStep * (data.length : ℤ) }]
   else []) ++
  (if batchIdx % cfg.logInterval == 0 then
    [Event.consoleTrainLog { epoch := cfg.epoch,
                             processedSamples := batchIdx * data.length,
                             samplerLen := cfg.samplerLen,
                             completion := 100 * (batchIdx : ℚ) / (cfg.numBatches : ℚ),
                             loss := loss, lossScale := none }]
   else [])

/-- Whole-epoch trace of `train_mixed_precision`: `model.train()`,
`train_sampler.set_epoch(epoch)`, then the batch loop. -/
def train_mixed_precision {I : Type} (forward : List I → List (List ℚ))
    (criterion : List (List ℚ) → List ℕ → ℚ) (scale : ℚ) (cfg : TrainCfg)
    (batches : List (List I × List ℕ)) : List Event :=
  [Event.setTrain true, Event.samplerSetEpoch cfg.epoch] ++
  (batches.enum.map fun ib =>
    train_mixed_precision_batch forward criterion scale
      { cfg with numBatches := batches.length } ib.1 ib.2.1 ib.2.2).flatten

/-- Whole-epoch trace of `train_epoch`. -/
def train_epoch {I : Type} (forward : List I → List (List ℚ))
    (criterion : List (List ℚ) → List ℕ → ℚ) (cfg : TrainCfg)
    (batches : List (List I × List ℕ)) : List Event :=
  [Event.setTrain true, Event.samplerSetEpoch cfg.epoch] ++
  (batches.enum.map fun ib =>
    train_epoch_batch forward criterion
      { cfg with numBatches := batches.length } ib.1 ib.2.1 ib.2.2).flatten

/-- The per-batch operation order asserted by claim C1: gradients zeroed
first, tensors moved to the accelerator second. -/
def c1ClaimedOrder (useCuda : Bool) : List Event :=
  [Event.zeroGrad] ++ (if useCuda then [Event.moveToDevice] else []) ++
  [Event.forward true true, Event.computeLoss true true, Event.scaleLoss,
   Event.backward, Event.syncGradients, Event.unscaleGrads,
   Event.optimizerStep, Event.scalerUpdate]

/-- The per-batch operation order asserted by claim C5 for `train_epoch`:
gradients zeroed first, tensors moved second. -/
def c5ClaimedOrder (useCuda : Bool) : List Event :=
  [Event.zeroGrad] ++ (if useCuda then [Event.moveToDevice] else []) ++
  [Event.forward false true, Event.computeLoss false true,
   Event.backward, Event.optimizerStep]

/-- Index of the first maximal entry of a row; embeds the index component
of `tensor.max(dim=1)` used in `accuracy` (util.py line 156). -/
def argmaxIdx (l : List ℚ) : ℕ :=
  (l.enum.foldl (fun best cur => if best.2 < cur.2 then cur else best) (0, l.headD 0)).1

/-- All row indices sorted by score, highest first, equal scores in index
order; the index order produced by `tensor.topk(k, 1, True, True)`
before truncation to `k`. -/
def sortIdx (row : List ℚ) : List ℕ :=
  List.insertionSort (fun i j => row.getD j 0 ≤ row.getD i 0) (List.range row.length)

/-- The indices of the `k` highest-scored entries of a row, highest first;
embeds one row of `output.topk(maxk, 1, True, True)` (util.py line 158). -/
def topkIdx (k : ℕ) (row : List ℚ) : List ℕ := (sortIdx row).take k

/-- Transpose of a rectangular integer matrix; embeds `pred.t()`
(util.py line 159). -/
def tensorT (m : List (List ℕ)) : List (List ℕ) :=
  (List.range (m.headD []).length).map fun j => m.map fun row => row.getD j 0

/-- The `target` argument of `accuracy`: either a 1-d tensor of class
indices or a 2-d tensor of per-class scores (for example one-hot or
soft labels). -/
inductive Target where
  | oneD : List ℕ → Target
  | twoD : List (List ℚ) → Target
  deriving DecidableEq

/-- `target.size(0)` (util.py line 154). -/
def Target.size0 : Target → ℕ
  | .oneD t => t.length
  | .twoD t => t.length

/-- The class-index reduction of `accuracy`'s target:
`if target.ndim == 2: target = target.max(dim=1)[1]` (util.py lines 155-156). -/
def Target.toIndices : Target → List ℕ
  | .oneD t => t
  | .twoD t => t.map argmaxIdx

/-- The boolean match matrix `correct = pred.eq(target[None])` of
`accuracy` (util.py lines 158-160): `pred` stacks the per-example top-`maxk`
index rows, is transposed, and compared against the broadcast target. -/
def correctMatrix (output : List (List ℚ)) (tgt : List ℕ) (maxk : ℕ) : List (List Bool) :=
  let pred := output.map (topkIdx maxk)
  (tensorT pred).map fun prow => (prow.zip tgt).map fun pt => pt.1 == pt.2

/-- `accuracy(output, target, topk)` (util.py lines 150-166): for each `k`
in `topk` it counts the matches in the first `k` rows of the transposed
top-`maxk` prediction matrix and returns that count times
`100.0 / batch_size`.  `util.py` calls it with the default `topk=(1, 5)`. -/
def accuracy (output : List (List ℚ)) (target : Target) (topk : List ℕ) : List ℚ :=
  let maxk := topk.foldr Nat.max 0
  let batchSize := target.size0
  let tgt := target.toIndices
  let correct := correctMatrix output tgt maxk
  topk.map fun k => (((correct.take k).flatten.count true : ℕ) : ℚ) * (100 / (batchSize : ℚ))

/-- Written from the spec: the fraction of examples of the batch whose
true label appears among the `k` highest-scored predictions of the
output. -/
def topkFraction (output : List (List ℚ)) (target : List ℕ) (k : ℕ) : ℚ :=
  (((output.zip target).countP fun ot => decide (ot.2 ∈ topkIdx k ot.1) : ℕ) : ℚ) /
    (target.length : ℚ)

/-- The mutable state of the model module: its parameters and the
training-mode flag toggled by `model.train()` / `model.eval()`. -/
structure ModelState (P : Type) where
  params : P
  training : Bool

/-- One element yielded by the test loader. -/
structure TestBatch (I : Type) where
  data : List I
  target : List ℕ

/-- Events that would change training state if `test` emitted them:
a backward pass, an optimizer step, or a forward/loss evaluation with
gradient tracking enabled. -/
def violatesTestFrame : Event → Bool
  | .backward => true
  | .optimizerStep => true
  | .forward _ g => g
  | .computeLoss _ g => g
  | _ => false

/-- The `for data, target in test_loader` loop of `test` (util.py lines
124-133), run under `torch.inference_mode()`: accumulates the batch loss,
the two `accuracy(output, target)` components, and the trace of calls. -/
def testLoop {I P : Type} (forward : P → List I → List (List ℚ))
    (criterion : List (List ℚ) → List ℕ → ℚ) (params : P) (useCuda : Bool) :
    List (TestBatch I) → ℚ × ℚ × ℚ × List Event
  | [] => (0, 0, 0, [])
  | b :: bs =>
    let output := forward params b.data
    let batchLoss := criterion output b.target
    let accs := accuracy output (Target.oneD b.target) [1, 5]
    let rest := testLoop forward criterion params useCuda bs
    (batchLoss + rest.1, accs.getD 0 0 + rest.2.1, accs.getD 1 0 + rest.2.2.1,
     ((if useCuda then [Event.moveToDevice] else []) ++
      [Event.forward false false, Event.computeLoss false false]) ++ rest.2.2.2)

/-- What `test` returns/effects: the model state after `model.eval()`,
the three reported metrics, and the trace of calls. -/
structure TestResult (P : Type) where
  modelState : ModelState P
  testLoss : ℚ
  acc1 : ℚ
  acc5 : ℚ
  events : List Event

/-- `test` (util.py lines 111-147): `model.eval()`, the inference-mode
accumulation loop, division of the three accumulators by
`len(test_sampler)`, the optional wandb record, and the console line. -/
def test {I P : Type} (forward : P → List I → List (List ℚ))
    (criterion : List (List ℚ) → List ℕ → ℚ) (st : ModelState P)
    (batches : List (TestBatch I)) (samplerLen : ℕ) (useCuda : Bool)
    (epoch : ℤ) (wandbRun : Bool) : TestResult P :=
  let st1 : ModelState P := { st with training := false }
  let r := testLoop forward criterion st1.params useCuda batches
  let testLoss := r.1 / (samplerLen : ℚ)
  let acc1 := r.2.1 / (samplerLen : ℚ)
  let acc5 := r.2.2.1 / (samplerLen : ℚ)
  let info : TestLogInfo := { loss := testLoss, acc1 := acc1, acc5 := acc5, epoch := epoch }
  { modelState := st1, testLoss := testLoss, acc1 := acc1, acc5 := acc5,
    events := [Event.setTrain false] ++ r.2.2.2 ++
      (if wandbRun then [Event.wandbTestLog info] else []) ++
      [Event.consoleTestLog info] }

/-- The interpolation modes accepted for `args.interpolation`. -/
inductive Interp where
  | nearest
  | bilinear
  | bicubic
  deriving DecidableEq

/-- The image transforms used by `load_data`. -/
inductive Transform where
  | randomResizedCrop (size : ℕ) (interp : Interp)
  | resize (size : ℕ) (interp : Interp)
  | centerCrop (size : ℕ)
  | pilToTensor
  | convertImageDtypeFloat
  | normalize (mean std : List ℚ)
  deriving DecidableEq

/-- The fields of `args` read by `load_data`. -/
structure Args where
  interpolation : Interp
  trainCropSize : ℕ
  valResizeSize : ℕ
  valCropSize : ℕ

/-- The constructor arguments of a `DistributedSampler` built by
`load_data`: `num_replicas=world_size`, `rank=rank` (defaults:
`shuffle=True`, `drop_last=False`). -/
structure SamplerCfg where
  numReplicas : ℕ
  rank : ℕ

/-- What `load_data` builds: the two transform pipelines attached to the
`ImageFolder` datasets and the two sampler configurations. -/
structure LoadDataResult where
  trainTransforms : List Transform
  testTransforms : List Transform
  trainSampler : SamplerCfg
  testSampler : SamplerCfg

/-- The known ImageNet channel means (util.py line 175). -/
def imagenetMean : List ℚ := [0.485, 0.456, 0.406]

/-- The known ImageNet channel standard deviations (util.py line 176). -/
def imagenetStd : List ℚ := [0.229, 0.224, 0.225]

/-- `load_data` (util.py lines 169-199): builds the train pipeline
(random-resized-crop, PIL-to-tensor, float conversion, normalization),
the test pipeline (resize, center-crop, PIL-to-tensor, float conversion,
normalization), and one `DistributedSampler(dataset, num_replicas=world_size,
rank=rank)` configuration per dataset. -/
def load_data (args : Args) (worldSize rank : ℕ) : LoadDataResult :=
  { trainTransforms :=
      [Transform.randomResizedCrop args.trainCropSize args.interpolation,
       Transform.pilToTensor, Transform.convertImageDtypeFloat,
       Transform.normalize imagenetMean imagenetStd],
    testTransforms :=
      [Transform.resize args.valResizeSize args.interpolation,
       Transform.centerCrop args.valCropSize,
       Transform.pilToTensor, Transform.convertImageDtypeFloat,
       Transform.normalize imagenetMean imagenetStd],
    trainSampler := { numReplicas := worldSize, rank := rank },
    testSampler := { numReplicas := worldSize, rank := rank } }

/-- Written from the spec: the training pipeline of claim C7,
random-resized-crop followed by conversion to a float tensor and
normalization with the fixed ImageNet statistics. -/
def c7TrainPipeline (args : Args) : List Transform :=
  [Transform.randomResizedCrop args.trainCropSize args.interpolation,
   Transform.pilToTensor, Transform.convertImageDtypeFloat,
   Transform.normalize imagenetMean imagenetStd]

/-- Written from the spec: the evaluation pipeline of claim C7, a resize
followed by a center crop, conversion to a float tensor, and the same
fixed normalization. -/
def c7TestPipeline (args : Args) : List Transform :=
  [Transform.resize args.valResizeSize args.interpolation,
   Transform.centerCrop args.valCropSize,
   Transform.pilToTensor, Transform.convertImageDtypeFloat,
   Transform.normalize imagenetMean imagenetStd]

/-- `ceil(n / numReplicas)`: the `num_samples` of the framework's
`DistributedSampler` with `drop_last=False`. -/
def numSamplesOf (n numReplicas : ℕ) : ℕ := (n + numReplicas - 1) / numReplicas

/-- Modelled from the external framework: the padded index list of
`torch.utils.data.distributed.DistributedSampler` with `drop_last=False`.
`perm` stands for the shuffled index list `torch.randperm(len(dataset))`;
the list is extended with repeated initial indices (cycling when the
padding exceeds the dataset) until its length is
`ceil(n / num_replicas) * num_replicas`. -/
def paddedIndices (perm : List ℕ) (numReplicas : ℕ) : List ℕ :=
  let n := perm.length
  let totalSize := numSamplesOf n numReplicas * numReplicas
  let padding := totalSize - n
  if padding ≤ n then perm ++ perm.take padding
  else perm ++ ((List.replicate ((padding + n - 1) / n) perm).flatten.take padding)

/-- Modelled from the external framework: the shard of one rank,
the slice `indices[rank:total_size:num_replicas]` of the padded index
list. -/
def samplerShard (cfg : SamplerCfg) (perm : List ℕ) : List ℕ :=
  let totalSize := numSamplesOf perm.length cfg.numReplicas * cfg.numReplicas
  let inds := paddedIndices perm cfg.numReplicas
  (List.range inds.length).filterMap fun i =>
    if cfg.rank ≤ i ∧ i < totalSize ∧ (i - cfg.rank) % cfg.numReplicas = 0
    then inds.get? i else none

/-- Claim C1: in `train_mixed_precision`, for every batch the training
operations run in the order: tensors moved to accelerator memory (when
CUDA is used), gradients zeroed, forward pass and loss under the
automatic mixed-precision context, loss scaled before the backward pass,
backward pass, distributed-gradient synchronization, gradient unscaling,
optimizer step, and the scaler update last. -/
theorem C1_mixed_precision_order {I : Type} (forward : List I → List (List ℚ))
    (criterion : List (List ℚ) → List ℕ → ℚ) (scale : ℚ) (cfg : TrainCfg)
    (batchIdx : ℕ) (data : List I) (target : List ℕ) :
    coreOps (train_mixed_precision_batch forward criterion scale cfg batchIdx data target) =
      (if cfg.useCuda then [Event.moveToDevice] else []) ++
      [Event.zeroGrad, Event.forward true true, Event.computeLoss true true,
       Event.scaleLoss, Event.backward, Event.syncGradients, Event.unscaleGrads,
       Event.optimizerStep, Event.scalerUpdate] := by
  cases hc : cfg.useCuda <;> cases hw : cfg.wandbRun <;>
    simp [train_mixed_precision_batch, coreOps, hc, hw, isTrainOp] <;>
    split <;> simp_all [isTrainOp]

/-- Claim C1, counterexample to the order as stated: with CUDA enabled the
trace moves tensors to the device before zeroing gradients, not after. -/
theorem C1_claimed_order_counterexample :
    coreOps (train_mixed_precision_batch (fun _ : List Unit => [[(1 : ℚ)]])
        (fun _ _ => 1) 1
        { epoch := 1, logInterval := 1, useCuda := true, numBatches := 1,
          samplerLen := 1, wandbRun := false } 0 [()] [0]) ≠
      c1ClaimedOrder true := by decide

/-- Witness for C1 at a concrete batch with CUDA enabled. -/
theorem C1_mixed_precision_order_witness :
    coreOps (train_mixed_precision_batch (fun _ : List Unit => [[(1 : ℚ)]])
        (fun _ _ => 1) 1
        { epoch := 1, logInterval := 1, useCuda := true, numBatches := 1,
          samplerLen := 1, wandbRun := false } 0 [()] [0]) =
      [Event.moveToDevice, Event.zeroGrad, Event.forward true true,
       Event.computeLoss true true, Event.scaleLoss, Event.backward,
       Event.syncGradients, Event.unscaleGrads, Event.optimizerStep,
       Event.scalerUpdate] :=
  C1_mixed_precision_order (fun _ : List Unit => [[(1 : ℚ)]]) (fun _ _ => 1) 1
    { epoch := 1, logInterval := 1, useCuda := true, numBatches := 1,
      samplerLen := 1, wandbRun := false } 0 [()] [0]

set_option maxHeartbeats 1000000

/-- Claim C5: per batch, the training operations of `train_epoch` are
exactly those of `train_mixed_precision` with the loss-scaling and
gradient-synchronization calls removed and the mixed-precision context
dropped; the common operations run in the same order (tensors moved when
CUDA is used, gradients zeroed, forward, loss, backward on the unscaled
loss, optimizer step). -/
theorem C5_full_precision_strips_scaling {I : Type} (forward : List I → List (List ℚ))
    (criterion : List (List ℚ) → List ℕ → ℚ) (scale : ℚ) (cfg : TrainCfg)
    (batchIdx : ℕ) (data : List I) (target : List ℕ) :
    coreOps (train_epoch_batch forward criterion cfg batchIdx data target) =
      stripMixedPrecision
        (coreOps (train_mixed_precision_batch forward criterion scale cfg batchIdx data target)) := by
  cases hc : cfg.useCuda <;> cases hw : cfg.wandbRun <;>
    simp [train_epoch_batch, train_mixed_precision_batch, coreOps,
      stripMixedPrecision, hc, hw, isTrainOp, isMixedPrecisionOp, clearAutocast] <;>
    split <;> simp_all [isTrainOp, isMixedPrecisionOp, clearAutocast]

/-- Claim C5, counterexample to the order as stated: `train_epoch` also
moves tensors to the device before zeroing gradients. -/
theorem C5_claimed_order_counterexample :
    coreOps (train_epoch_batch (fun _ : List Unit => [[(1 : ℚ)]])
        (fun _ _ => 1)
        { epoch := 1, logInterval := 1, useCuda := true, numBatches := 1,
          samplerLen := 1, wandbRun := false } 0 [()] [0]) ≠
      c5ClaimedOrder true := by decide

/-- Witness for C5 at a concrete batch. -/
theorem C5_full_precision_strips_scaling_witness :
    coreOps (train_epoch_batch (fun _ : List Unit => [[(1 : ℚ)]])
        (fun _ _ => 1)
        { epoch := 1, logInterval := 1, useCuda := true, numBatches := 1,
          samplerLen := 1, wandbRun := false } 0 [()] [0]) =
      stripMixedPrecision
        (coreOps (train_mixed_precision_batch (fun _ : List Unit => [[(1 : ℚ)]])
          (fun _ _ => 1) 1
          { epoch := 1, logInterval := 1, useCuda := true, numBatches := 1,
            samplerLen := 1, wandbRun := false } 0 [()] [0])) :=
  C5_full_precision_strips_scaling (fun _ : List Unit => [[(1 : ℚ)]]) (fun _ _ => 1) 1
    { epoch := 1, logInterval := 1, useCuda := true, numBatches := 1,
      samplerLen := 1, wandbRun := false } 0 [()] [0]

/-- Claim C6 as it holds on the code: in both training procedures the
console line appears exactly when the batch index is a multiple of
`log_interval`, but the dashboard record appears on every batch whenever
a run is supplied, not at the `log_interval` cadence. -/
theorem C6_logging_cadence {I : Type} (forward : List I → List (List ℚ))
    (criterion : List (List ℚ) → List ℕ → ℚ) (scale : ℚ) (cfg : TrainCfg)
    (batchIdx : ℕ) (data : List I) (target : List ℕ) :
    hasConsoleTrainLog (train_mixed_precision_batch forward criterion scale cfg batchIdx data target) =
        (batchIdx % cfg.logInterval == 0) ∧
      hasWandbTrainLog (train_mixed_precision_batch forward criterion scale cfg batchIdx data target) =
        cfg.wandbRun ∧
      hasConsoleTrainLog (train_epoch_batch forward criterion cfg batchIdx data target) =
        (batchIdx % cfg.logInterval == 0) ∧
      hasWandbTrainLog (train_epoch_batch forward criterion cfg batchIdx data target) =
        cfg.wandbRun := by
  refine ⟨?_, ?_, ?_, ?_⟩ <;>
    cases hc : cfg.useCuda <;> cases hw : cfg.wandbRun <;>
      simp [train_mixed_precision_batch, train_epoch_batch,
        hasConsoleTrainLog, hasWandbTrainLog, hc, hw,
        isConsoleTrainEvt, isWandbTrainEvt] <;>
      split <;> simp_all [isConsoleTrainEvt, isWandbTrainEvt]

/-- Claim C6, counterexample as stated: with `log_interval = 2` a dashboard
record is emitted at batch index 1 (where no console line is printed),
so the dashboard is not logged at the fixed interval. -/
theorem C6_dashboard_every_batch_counterexample :
    hasWandbTrainLog (train_mixed_precision_batch (fun _ : List Unit => [[(1 : ℚ)]])
        (fun _ _ => 1) 1
        { epoch := 1, logInterval := 2, useCuda := false, numBatches := 2,
          samplerLen := 2, wandbRun := true } 1 [()] [0]) = true ∧
      hasConsoleTrainLog (train_mixed_precision_batch (fun _ : List Unit => [[(1 : ℚ)]])
        (fun _ _ => 1) 1
        { epoch := 1, logInterval := 2, useCuda := false, numBatches := 2,
          samplerLen := 2, wandbRun := true } 1 [()] [0]) = false ∧
      ¬ (1 % 2 = 0) := by decide

/-- Claim C7: `load_data` attaches the fixed training pipeline
(random-resized-crop, float-tensor conversion, ImageNet normalization)
and the fixed evaluation pipeline (resize, center crop, float-tensor
conversion, the same normalization). -/
theorem C7_pipelines (args : Args) (worldSize rank : ℕ) :
    (load_data args worldSize rank).trainTransforms = c7TrainPipeline args ∧
      (load_data args worldSize rank).testTransforms = c7TestPipeline args :=
  ⟨rfl, rfl⟩

/-- Claim C10: in both training procedures, the `train/samples_seen`
values sent to the dashboard for a batch are exactly
`global_step * len(data)` with
`global_step = (epoch - 1) * len(train_loader) + batch_idx` — present
once when a run is supplied and absent otherwise. -/
theorem C10_samples_seen {I : Type} (forward : List I → List (List ℚ))
    (criterion : List (List ℚ) → List ℕ → ℚ) (scale : ℚ) (cfg : TrainCfg)
    (batchIdx : ℕ) (data : List I) (target : List ℕ) :
    (train_mixed_precision_batch forward criterion scale cfg batchIdx data target).filterMap
        samplesSeenOf =
      (if cfg.wandbRun then
        [((cfg.epoch - 1) * (cfg.numBatches : ℤ) + (batchIdx : ℤ)) * (data.length : ℤ)]
       else []) ∧
      (train_epoch_batch forward criterion cfg batchIdx data target).filterMap samplesSeenOf =
      (if cfg.wandbRun then
        [((cfg.epoch - 1) * (cfg.numBatches : ℤ) + (batchIdx : ℤ)) * (data.length : ℤ)]
       else []) := by
  constructor <;>
    cases hc : cfg.useCuda <;> cases hw : cfg.wandbRun <;>
      simp [train_mixed_precision_batch, train_epoch_batch, hc, hw, samplesSeenOf] <;>
      split <;> simp_all [samplesSeenOf]

theorem testLoop_loss_sum {I P : Type} (forward : P → List I → List (List ℚ))
    (criterion : List (List ℚ) → List ℕ → ℚ) (params : P) (useCuda : Bool)
    (batches : List (TestBatch I)) :
    (testLoop forward criterion params useCuda batches).1 =
      (batches.map fun b => criterion (forward params b.data) b.target).sum := by
  induction batches with
  | nil => simp [testLoop]
  | cons b bs ih => simp [testLoop, ih]

theorem testLoop_acc1_sum {I P : Type} (forward : P → List I → List (List ℚ))
    (criterion : List (List ℚ) → List ℕ → ℚ) (params : P) (useCuda : Bool)
    (batches : List (TestBatch I)) :
    (testLoop forward criterion params useCuda batches).2.1 =
      (batches.map fun b =>
        (accuracy (forward params b.data) (Target.oneD b.target) [1, 5]).getD 0 0).sum := by
  induction batches with
  | nil => simp [testLoop]
  | cons b bs ih => simp [testLoop, ih]

theorem testLoop_acc5_sum {I P : Type} (forward : P → List I → List (List ℚ))
    (criterion : List (List ℚ) → List ℕ → ℚ) (params : P) (useCuda : Bool)
    (batches : List (TestBatch I)) :
    (testLoop forward criterion params useCuda batches).2.2.1 =
      (batches.map fun b =>
        (accuracy (forward params b.data) (Target.oneD b.target) [1, 5]).getD 1 0).sum := by
  induction batches with
  | nil => simp [testLoop]
  | cons b bs ih => simp [testLoop, ih]

theorem testLoop_no_frame_violation {I P : Type} (forward : P → List I → List (List ℚ))
    (criterion : List (List ℚ) → List ℕ → ℚ) (params : P) (useCuda : Bool)
    (batches : List (TestBatch I)) :
    (testLoop forward criterion params useCuda batches).2.2.2.countP violatesTestFrame = 0 := by
  induction batches with
  | nil => simp [testLoop]
  | cons b bs ih =>
    cases useCuda <;> simp [testLoop, ih, violatesTestFrame]

/-- Claim C3: `test` reports, for the loss and the top-1 and top-5
accuracies, the per-batch values accumulated over the whole sharded test
set, each divided by `len(test_sampler)`. -/
theorem C3_test_shard_averages {I P : Type} (forward : P → List I → List (List ℚ))
    (criterion : List (List ℚ) → List ℕ → ℚ) (st : ModelState P)
    (batches : List (TestBatch I)) (samplerLen : ℕ) (useCuda : Bool)
    (epoch : ℤ) (wandbRun : Bool) :
    (test forward criterion st batches samplerLen useCuda epoch wandbRun).testLoss =
        (batches.map fun b => criterion (forward st.params b.data) b.target).sum /
          (samplerLen : ℚ) ∧
      (test forward criterion st batches samplerLen useCuda epoch wandbRun).acc1 =
        (batches.map fun b =>
          (accuracy (forward st.params b.data) (Target.oneD b.target) [1, 5]).getD 0 0).sum /
          (samplerLen : ℚ) ∧
      (test forward criterion st batches samplerLen useCuda epoch wandbRun).acc5 =
        (batches.map fun b =>
          (accuracy (forward st.params b.data) (Target.oneD b.target) [1, 5]).getD 1 0).sum /
          (samplerLen : ℚ) := by
  refine ⟨?_, ?_, ?_⟩ <;>
    simp [test, testLoop_loss_sum, testLoop_acc1_sum, testLoop_acc5_sum]

/-- Claim C8: `test` leaves the model parameters unchanged and its trace
contains no backward pass, no optimizer step, and no forward or loss
evaluation with gradient tracking enabled (`test` receives no optimizer
at all, so the optimizer state cannot change). -/
theorem C8_test_frame {I P : Type} (forward : P → List I → List (List ℚ))
    (criterion : List (List ℚ) → List ℕ → ℚ) (st : ModelState P)
    (batches : List (TestBatch I)) (samplerLen : ℕ) (useCuda : Bool)
    (epoch : ℤ) (wandbRun : Bool) :
    (test forward criterion st batches samplerLen useCuda epoch wandbRun).modelState.params =
        st.params ∧
      (test forward criterion st batches samplerLen useCuda epoch wandbRun).events.countP
        violatesTestFrame = 0 := by
  refine ⟨rfl, ?_⟩
  cases wandbRun <;>
    simp [test, List.countP_append, violatesTestFrame, testLoop_no_frame_violation]

/-- Claim C9: on a 2-dimensional target, `accuracy` first reduces the
target to class indices by the argmax along dimension 1 and then behaves
exactly as on the 1-dimensional index target. -/
theorem C9_twoD_target_argmax (output : List (List ℚ)) (t2 : List (List ℚ))
    (topk : List ℕ) :
    accuracy output (Target.twoD t2) topk =
      accuracy output (Target.oneD (t2.map argmaxIdx)) topk := by
  simp [accuracy, Target.size0, Target.toIndices]

theorem numSamplesOf_mul_of_dvd (ws m : ℕ) (hws : 0 < ws) :
    numSamplesOf (ws * m) ws * ws = ws * m := by
  unfold numSamplesOf
  have h1 : ws * m + ws - 1 = ws * m + (ws - 1) := by omega
  rw [h1, Nat.mul_add_div hws, Nat.div_eq_of_lt (by omega), Nat.add_zero, Nat.mul_comm]

theorem totalSize_of_dvd (perm : List ℕ) (ws : ℕ) (hws : 0 < ws) (h : ws ∣ perm.length) :
    numSamplesOf perm.length ws * ws = perm.length := by
  obtain ⟨m, hm⟩ := h
  rw [hm]
  exact numSamplesOf_mul_of_dvd ws m hws

theorem paddedIndices_of_dvd (perm : List ℕ) (ws : ℕ) (hws : 0 < ws)
    (h : ws ∣ perm.length) : paddedIndices perm ws = perm := by
  have htot := totalSize_of_dvd perm ws hws h
  simp [paddedIndices, htot]

theorem samplerShard_of_dvd (ws r : ℕ) (perm : List ℕ) (hws : 0 < ws)
    (h : ws ∣ perm.length) :
    samplerShard { numReplicas := ws, rank := r } perm =
      (List.range perm.length).filterMap fun i =>
        if r ≤ i ∧ i < perm.length ∧ (i - r) % ws = 0 then perm.get? i else none := by
  have htot := totalSize_of_dvd perm ws hws h
  rw [samplerShard, paddedIndices_of_dvd perm ws hws h]
  simp [htot]

theorem mem_samplerShard_of_dvd (ws r x : ℕ) (perm : List ℕ) (hws : 0 < ws)
    (h : ws ∣ perm.length)
    (hx : x ∈ samplerShard { numReplicas := ws, rank := r } perm) :
    ∃ i, i < perm.length ∧ r ≤ i ∧ (i - r) % ws = 0 ∧ perm.get? i = some x := by
  rw [samplerShard_of_dvd ws r perm hws h] at hx
  obtain ⟨i, hi, hcond⟩ := List.mem_filterMap.mp hx
  by_cases hc : r ≤ i ∧ i < perm.length ∧ (i - r) % ws = 0
  · rw [if_pos hc] at hcond
    exact ⟨i, hc.2.1, hc.1, hc.2.2, hcond⟩
  · rw [if_neg hc] at hcond
    exact absurd hcond (by simp)

theorem rank_eq_mod_of_slice (ws r i : ℕ) (hr : r < ws) (hle : r ≤ i)
    (hmod : (i - r) % ws = 0) : i % ws = r := by
  obtain ⟨a, ha⟩ := Nat.dvd_of_mod_eq_zero hmod
  have hi : i = r + ws * a := by omega
  rw [hi, Nat.add_mul_mod_self_left, Nat.mod_eq_of_lt hr]

/-- Claim C4 amended: when the world size divides the dataset size, the
distributed samplers built by `load_data` for two distinct ranks assign
disjoint shards; `perm` is the shuffled index order of the dataset. -/
theorem C4_disjoint_shards_of_dvd (args : Args) (ws r1 r2 : ℕ) (perm : List ℕ)
    (hdvd : ws ∣ perm.length) (hnd : perm.Nodup)
    (h1 : r1 < ws) (h2 : r2 < ws) (hne : r1 ≠ r2) :
    List.Disjoint (samplerShard (load_data args ws r1).trainSampler perm)
      (samplerShard (load_data args ws r2).trainSampler perm) := by
  have hws : 0 < ws := Nat.lt_of_le_of_lt (Nat.zero_le r1) h1
  intro x hx1 hx2
  obtain ⟨i, hilt, hile, himod, higet⟩ := mem_samplerShard_of_dvd ws r1 x perm hws hdvd hx1
  obtain ⟨j, hjlt, hjle, hjmod, hjget⟩ := mem_samplerShard_of_dvd ws r2 x perm hws hdvd hx2
  have hij : i = j := by
    apply List.getElem?_inj hilt hnd
    rw [← List.get?_eq_getElem?, ← List.get?_eq_getElem?, higet, hjget]
  apply hne
  rw [← rank_eq_mod_of_slice ws r1 i h1 hile himod,
    ← rank_eq_mod_of_slice ws r2 j h2 hjle hjmod, hij]

/-- Claim C4, counterexample as stated: with a dataset of 3 indices and
world size 2, the framework sampler pads by repeating index 0, which then
appears in the shard of rank 0 and in the shard of rank 1. -/
theorem C4_overlap_counterexample :
    (0 : ℕ) ∈ samplerShard
        (load_data { interpolation := Interp.bilinear, trainCropSize := 224,
                     valResizeSize := 256, valCropSize := 224 } 2 0).trainSampler [0, 1, 2] ∧
      (0 : ℕ) ∈ samplerShard
        (load_data { interpolation := Interp.bilinear, trainCropSize := 224,
                     valResizeSize := 256, valCropSize := 224 } 2 1).trainSampler [0, 1, 2] := by
  decide

/-- Witness for C4 at a dataset of 4 indices and world size 2. -/
theorem C4_disjoint_shards_witness :
    List.Disjoint
      (samplerShard
        (load_data { interpolation := Interp.bilinear, trainCropSize := 224,
                     valResizeSize := 256, valCropSize := 224 } 2 0).trainSampler [0, 1, 2, 3])
      (samplerShard
        (load_data { interpolation := Interp.bilinear, trainCropSize := 224,
                     valResizeSize := 256, valCropSize := 224 } 2 1).trainSampler [0, 1, 2, 3]) :=
  C4_disjoint_shards_of_dvd
    { interpolation := Interp.bilinear, trainCropSize := 224,
      valResizeSize := 256, valCropSize := 224 } 2 0 1 [0, 1, 2, 3]
    (by decide) (by decide) (by decide) (by decide) (by decide)

theorem count_true_map {α : Type} (f : α → Bool) (l : List α) :
    (l.map f).count true = l.countP f := by
  induction l with
  | nil => rfl
  | cons a l ih => cases h : f a <;> simp [List.count_cons, List.countP_cons, h, ih]

theorem le_foldr_max (k : ℕ) (l : List ℕ) (h : k ∈ l) : k ≤ l.foldr Nat.max 0 := by
  induction l with
  | nil => cases h
  | cons a l ih =>
    simp only [List.foldr_cons]
    rcases List.mem_cons.mp h with rfl | hm
    · exact Nat.le_max_left _ _
    · exact Nat.le_trans (ih hm) (Nat.le_max_right _ _)

theorem sortIdx_length (row : List ℚ) : (sortIdx row).length = row.length := by
  simp [sortIdx, List.length_insertionSort]

theorem sortIdx_nodup (row : List ℚ) : (sortIdx row).Nodup :=
  ((List.perm_insertionSort _ _).nodup_iff).mpr (List.nodup_range _)

theorem topkIdx_length (k : ℕ) (row : List ℚ) (h : k ≤ row.length) :
    (topkIdx k row).length = k := by
  simp [topkIdx, sortIdx_length, Nat.min_eq_left h]

theorem topkIdx_nodup (k : ℕ) (row : List ℚ) : (topkIdx k row).Nodup :=
  (List.take_sublist _ _).nodup (sortIdx_nodup row)

theorem topkIdx_take (k m : ℕ) (hk : k ≤ m) (row : List ℚ) :
    (topkIdx m row).take k = topkIdx k row := by
  simp [topkIdx, List.take_take, Nat.min_eq_left hk]

theorem getD_eq_of_lt (l : List ℕ) (k : ℕ) (h : k < l.length) : l.getD k 0 = l[k] := by
  simp [List.getD_eq_getD_get?, List.get?_eq_getElem?, List.getElem?_eq_getElem h]

theorem colCount_eq_indicator_sum (P : List (List ℕ)) (T : List ℕ) (k : ℕ) :
    ((P.map fun r => r.getD k 0).zip T).countP (fun pt => pt.1 == pt.2) =
      ((P.zip T).map fun pt => if pt.1.getD k 0 == pt.2 then 1 else 0).sum := by
  induction P generalizing T with
  | nil => simp
  | cons p ps ih =>
    cases T with
    | nil => simp
    | cons t ts =>
      simp only [List.map_cons, List.zip_cons_cons, List.countP_cons, List.sum_cons, ih ts]
      omega

theorem colSum_eq_takeCount (P : List (List ℕ)) (T : List ℕ) (k : ℕ)
    (hrow : ∀ p ∈ P, k ≤ p.length) :
    ((List.range k).map fun j =>
        ((P.map fun r => r.getD j 0).zip T).countP fun pt => pt.1 == pt.2).sum =
      ((P.zip T).map fun pt => (pt.1.take k).count pt.2).sum := by
  induction k with
  | zero => simp
  | succ k ih =>
    have hrow2 : ∀ p ∈ P, k ≤ p.length := fun p hp => Nat.le_of_succ_le (hrow p hp)
    rw [List.range_succ, List.map_append, List.sum_append]
    simp only [List.map_cons, List.map_nil, List.sum_cons, List.sum_nil, Nat.add_zero]
    rw [ih hrow2, colCount_eq_indicator_sum, ← List.sum_map_add]
    apply congrArg
    apply List.map_congr_left
    intro pt hpt
    have hlt : k < pt.1.length := hrow pt.1 (List.of_mem_zip hpt).1
    rw [List.take_succ, List.count_append, List.getElem?_eq_getElem hlt]
    simp [List.count_cons, getD_eq_of_lt pt.1 k hlt, List.getElem?_eq_getElem hlt]

theorem takeCount_eq_memCount (P : List (List ℕ)) (T : List ℕ) (k : ℕ)
    (hnd : ∀ p ∈ P, p.Nodup) :
    ((P.zip T).map fun pt => (pt.1.take k).count pt.2).sum =
      (P.zip T).countP fun pt => decide (pt.2 ∈ pt.1.take k) := by
  induction P generalizing T with
  | nil => simp
  | cons p ps ih =>
    cases T with
    | nil => simp
    | cons t ts =>
      have hpnd : (p.take k).Nodup := (List.take_sublist _ _).nodup (hnd p (by simp))
      have hrest := ih ts fun q hq => hnd q (List.mem_cons_of_mem p hq)
      simp only [List.zip_cons_cons, List.map_cons, List.sum_cons, List.countP_cons, hrest]
      by_cases hm : t ∈ p.take k
      · rw [List.count_eq_one_of_mem hpnd hm]
        simp [hm]
        omega
      · rw [List.count_eq_zero_of_not_mem hm]
        simp [hm]

theorem correct_count (output : List (List ℚ)) (target : List ℕ) (k maxk : ℕ)
    (hk : k ≤ maxk) (hne : output ≠ [])
    (hrows : ∀ row ∈ output, maxk ≤ row.length) :
    ((correctMatrix output target maxk).take k).flatten.count true =
      (output.zip target).countP fun ot => decide (ot.2 ∈ topkIdx k ot.1) := by
  have hhead : ((output.map (topkIdx maxk)).headD []).length = maxk := by
    obtain ⟨o, os, rfl⟩ := List.exists_cons_of_ne_nil hne
    simp [topkIdx_length maxk o (hrows o (by simp))]
  have hall : ∀ p ∈ output.map (topkIdx maxk), k ≤ p.length := by
    intro p hp
    obtain ⟨row, hrow, rfl⟩ := List.mem_map.mp hp
    rw [topkIdx_length maxk row (hrows row hrow)]
    exact hk
  have hnd : ∀ p ∈ output.map (topkIdx maxk), p.Nodup := by
    intro p hp
    obtain ⟨row, hrow, rfl⟩ := List.mem_map.mp hp
    exact topkIdx_nodup maxk row
  rw [correctMatrix, tensorT, hhead, List.map_map, ← List.map_take,
    List.take_range, Nat.min_eq_left hk, List.count_flatten, List.map_map]
  simp only [Function.comp_def, count_true_map]
  rw [colSum_eq_takeCount (output.map (topkIdx maxk)) target k hall,
    takeCount_eq_memCount (output.map (topkIdx maxk)) target k hnd,
    List.zip_map_left, List.countP_map]
  simp [Function.comp_def, topkIdx_take k maxk hk]

/-- Claim C2 amended: for every `k` in `topk`, `accuracy` returns `100`
times the fraction of examples of the batch whose true label appears
among the `k` highest-scored predictions, that is, the percentage rather
than the fraction. -/
theorem C2_accuracy_is_percentage (output : List (List ℚ)) (target : List ℕ)
    (topk : List ℕ) (hne : output ≠ [])
    (hrows : ∀ row ∈ output, topk.foldr Nat.max 0 ≤ row.length) :
    accuracy output (Target.oneD target) topk =
      topk.map fun k => 100 * topkFraction output target k := by
  simp only [accuracy, topkFraction, Target.toIndices, Target.size0]
  apply List.map_congr_left
  intro k hk
  rw [correct_count output target k (topk.foldr Nat.max 0) (le_foldr_max k topk hk)
    hne hrows]
  ring

/-- Claim C2, counterexample as stated: a batch with a single example
whose label tops the scores has top-1 fraction `1`, yet `accuracy`
returns `100`. -/
theorem C2_fraction_counterexample :
    accuracy [[(1 : ℚ), 0]] (Target.oneD [0]) [1] = [100] ∧
      topkFraction [[(1 : ℚ), 0]] [0] 1 = 1 ∧ ((100 : ℚ) ≠ 1) := by
  refine ⟨?_, ?_, by norm_num⟩
  · norm_num [accuracy, correctMatrix, tensorT, topkIdx, sortIdx, Target.toIndices,
      Target.size0, List.insertionSort, List.orderedInsert]
  · norm_num [topkFraction, topkIdx, sortIdx, List.insertionSort, List.orderedInsert]

/-- Witness for C2 at a concrete two-example batch with `topk = [1, 2]`. -/
theorem C2_accuracy_is_percentage_witness :
    accuracy [[(1 : ℚ), 0], [0, 1]] (Target.oneD [0, 0]) [1, 2] =
      [1, 2].map fun k => 100 * topkFraction [[(1 : ℚ), 0], [0, 1]] [0, 0] k :=
  C2_accuracy_is_percentage [[(1 : ℚ), 0], [0, 1]] [0, 0] [1, 2] (by decide) (by decide)

end KubeflowResnet
